import Mathlib

/-!
# Verification of the `twitter_utils` stream-ingestion core

A shallow embedding, in Lean, of the stream-ingestion engine of the
`twitter_utils` repository:

* `src/twitter_stream/src/stream_tweets.rs` — chunk classification
  (`stream_data`'s per-chunk closure), the rate-limit header snapshot
  (`RateLimitHeaders`), and the typed event schema (`StreamResponse` and its
  nested structs, including the custom `Deserialize` for `StreamResponseData`
  that recomputes `url` from `id`);
* `src/twitter_stream/src/lib.rs` — `tweetid2url`;
* `src/twitter_stream/examples/zmq_publisher.rs` — the reconnection
  controller loop in `main`.

Modelling conventions:

* `usize` is modelled as `Nat` (the `u64` range check serde_json performs on
  integer tokens is elided — no claim here exercises overflow);
* `f32` is modelled as either a finite value — carried as the exact decimal
  rational of the JSON text, mantissa rounding elided since serde_json prints
  a finite `f32` as the shortest decimal that re-parses (via `f64` and the
  cast) to the same float — or an infinity: serde_json parses the number as
  `f64`, Rust's `as f32` cast saturates out-of-range values (at or beyond
  `2^128 − 2^103`) to ±∞, and serde_json serializes a non-finite float as
  `null`, which then fails to re-parse as an `f32`;
* serde_json's lexical layer (bytes → JSON tree) is taken as a parameter
  where it occurs; the structural (schema) layer is modelled in full;
* byte strings (`bytes::Bytes`) are `List UInt8`; `Duration` is a count of
  nanoseconds (`Nat`); header values are `String`s;
* external effects (the HTTP connect, the per-chunk transport results, the
  ZeroMQ send results) are supplied by an explicit environment, exactly one
  entry per call the code makes.

The source struct `EntityAnnotation` is named `EntityAnnot` here; every other
name follows the source.
-/

/-! ## A JSON tree (serde_json::Value) -/

inductive Json where
  | null
  | bool (b : Bool)
  | num (q : Rat)
  | str (s : String)
  | arr (elems : List Json)
  | obj (fields : List (String × Json))

/-- Errors of serde_json deserialization, at the granularity this model
distinguishes. -/
inductive SerdeError where
  | lexError (msg : String)
  | missingField (name : String)
  | invalidType (expected : String)
deriving DecidableEq

abbrev DeResult (α : Type) := Except SerdeError α

theorem exceptBind_ok {α β ε : Type} (a : α) (f : α → Except ε β) :
    (Except.ok a >>= f) = f a := rfl

theorem exceptBind_error {α β ε : Type} (e : ε) (f : α → Except ε β) :
    ((Except.error e : Except ε α) >>= f) = .error e := rfl

theorem exceptPure {α ε : Type} (a : α) : (pure a : Except ε α) = .ok a := rfl

theorem exceptMap_ok_iff {α β ε : Type} (f : α → β) (x : Except ε α) (b : β) :
    x.map f = .ok b ↔ ∃ a, x = .ok a ∧ f a = b := by
  cases x <;> simp [Except.map, eq_comm]

instance {ε α : Type} [DecidableEq ε] [DecidableEq α] : DecidableEq (Except ε α) := fun x y =>
  match x, y with
  | .error e, .error f => decidable_of_iff (e = f) (by simp)
  | .error _, .ok _ => isFalse (by simp)
  | .ok _, .error _ => isFalse (by simp)
  | .ok a, .ok b => decidable_of_iff (a = b) (by simp)

/-- First binding of `key` in a JSON object's field list. -/
def getField (fields : List (String × Json)) (key : String) : Option Json :=
  match fields with
  | [] => none
  | (k, v) :: rest => if k = key then some v else getField rest key

def asObj : Json → DeResult (List (String × Json))
  | .obj fields => .ok fields
  | _ => .error (.invalidType "object")

def asStr : Json → DeResult String
  | .str s => .ok s
  | _ => .error (.invalidType "string")

/-- serde deserialization of a `usize` from a JSON value: the value must be a
nonnegative integer number. -/
def asUsize : Json → DeResult Nat
  | .num q => if q.den = 1 ∧ 0 ≤ q.num then .ok q.num.toNat else .error (.invalidType "u64")
  | _ => .error (.invalidType "u64")

/-- The smallest magnitude at which the `f64 → f32` cast (round to nearest,
ties to even) overflows to an infinity: `2^128 − 2^103` (half an ulp above
`f32::MAX`), written as its integer numeral. -/
def f32CastInfBound : Rat := 340282356779733661637539395458142568448

/-- An `f32` as this model distinguishes values: a finite value, carried as
the exact rational its JSON decimal denotes (mantissa rounding is elided —
see the header note), or an infinity, the result of the saturating cast on
an out-of-range number. A JSON number literal never parses to NaN, so NaN
cannot occur in a parsed event. -/
inductive F32 where
  | finite (q : Rat)
  | inf (negative : Bool)
deriving DecidableEq

def F32.isFiniteInRange : F32 → Bool
  | .finite q => decide (-f32CastInfBound < q ∧ q < f32CastInfBound)
  | .inf _ => false

/-- serde deserialization of an `f32`: serde_json parses the number as `f64`
and Rust casts it to `f32`; a value at or beyond the overflow bound
saturates to the infinity of its sign. `null` (or any other non-number) is a
type error. -/
def asF32 : Json → DeResult F32
  | .num q =>
    if f32CastInfBound ≤ q then .ok (.inf false)
    else if q ≤ -f32CastInfBound then .ok (.inf true)
    else .ok (.finite q)
  | _ => .error (.invalidType "f32")

/-- A required field: absence is a `missing field` error (serde derive). -/
def reqField (fields : List (String × Json)) (name : String) : DeResult Json :=
  match getField fields name with
  | some j => .ok j
  | none => .error (.missingField name)

/-- An `Option<T>` field: serde derive lets the field be absent (→ `None`),
maps JSON `null` to `None`, and otherwise deserializes a `T`. -/
def deOptVal {α : Type} (de : Json → DeResult α) : Json → DeResult (Option α)
  | .null => .ok none
  | j =>
    match de j with
    | .error e => .error e
    | .ok x => .ok (some x)

def optField {α : Type} (de : Json → DeResult α) (fields : List (String × Json))
    (name : String) : DeResult (Option α) :=
  match getField fields name with
  | none => .ok none
  | some j => deOptVal de j

def deList {α : Type} (de : Json → DeResult α) : List Json → DeResult (List α)
  | [] => .ok []
  | j :: rest =>
    match de j with
    | .error e => .error e
    | .ok x =>
      match deList de rest with
      | .error e => .error e
      | .ok xs => .ok (x :: xs)

/-- serde deserialization of a `Vec<T>`: the value must be a JSON array. -/
def deArr {α : Type} (de : Json → DeResult α) : Json → DeResult (List α)
  | .arr xs => deList de xs
  | _ => .error (.invalidType "array")

def strField (fields : List (String × Json)) (name : String) : DeResult String :=
  match reqField fields name with
  | .error e => .error e
  | .ok j => asStr j

def usizeField (fields : List (String × Json)) (name : String) : DeResult Nat :=
  match reqField fields name with
  | .error e => .error e
  | .ok j => asUsize j

def vecField {α : Type} (de : Json → DeResult α) (fields : List (String × Json))
    (name : String) : DeResult (List α) :=
  match reqField fields name with
  | .error e => .error e
  | .ok j => deArr de j

/-- serde serialization of an `Option<T>` field value: `None` becomes `null`. -/
def serOpt {α : Type} (ser : α → Json) : Option α → Json
  | none => Json.null
  | some x => ser x

def serVec {α : Type} (ser : α → Json) (xs : List α) : Json :=
  Json.arr (xs.map ser)

/-- serde_json serialization of an `f32` value: a finite float prints as a
number (its shortest round-trip decimal, carried exactly); a non-finite
float — an infinity here — serializes as `null`. -/
def serF32 : F32 → Json
  | .finite q => .num q
  | .inf _ => Json.null

/-! ## The event schema (stream_tweets.rs, lines 117–265) -/

structure PublicMetrics where
  retweet_count : Nat
  reply_count : Nat
  like_count : Nat
  quote_count : Nat
deriving DecidableEq

structure ReferencedTweets where
  id : String
  /-- serde rename: the JSON field is `type`. -/
  reference_type : String
deriving DecidableEq

/-- Source struct name: the entity-annotation record. -/
structure EntityAnnot where
  start : Nat
  «end» : Nat
  probability : F32
  /-- serde rename: the JSON field is `type`. -/
  annotation_type : String
  normalized_text : String
deriving DecidableEq

structure UrlImage where
  url : String
  width : Nat
  height : Nat
deriving DecidableEq

structure EntityUrl where
  start : Nat
  «end» : Nat
  url : String
  expanded_url : String
  display_url : String
  unwound_url : Option String
  images : Option (List UrlImage)
  status : Option Nat
  title : Option String
  description : Option String
deriving DecidableEq

structure EntityTag where
  start : Nat
  «end» : Nat
  tag : String
deriving DecidableEq

structure EntityMention where
  start : Nat
  «end» : Nat
  username : String
deriving DecidableEq

structure Entities where
  annotations : Option (List EntityAnnot)
  urls : Option (List EntityUrl)
  hashtags : Option (List EntityTag)
  mentions : Option (List EntityMention)
  cashtags : Option (List EntityTag)
deriving DecidableEq

structure RuleMatch where
  id : Nat
  tag : String
deriving DecidableEq

structure UserData where
  id : String
  name : String
  username : String
  created_at : String
deriving DecidableEq

structure StreamResponseIncludes where
  users : List UserData
deriving DecidableEq

structure StreamResponseData where
  id : String
  author_id : String
  url : String
  text : String
  created_at : String
  conversation_id : String
  referenced_tweets : Option (List ReferencedTweets)
  public_metrics : PublicMetrics
  entities : Option Entities
deriving DecidableEq

structure StreamResponseDataRaw where
  id : String
  author_id : String
  url : Option String
  text : String
  created_at : String
  conversation_id : String
  referenced_tweets : Option (List ReferencedTweets)
  public_metrics : PublicMetrics
  entities : Option Entities
deriving DecidableEq

structure StreamResponse where
  data : StreamResponseData
  includes : StreamResponseIncludes
  matching_rules : Option (List RuleMatch)
deriving DecidableEq

/-- lib.rs: `tweetid2url` (monomorphized at `String`). -/
def tweetid2url (id : String) : String :=
  "https://twitter.com/i/web/status/" ++ id

/-- stream_tweets.rs: `impl From<StreamResponseDataRaw> for StreamResponseData`
— the `url` of the raw payload is discarded and recomputed from `id`. -/
def StreamResponseData.ofRaw (raw : StreamResponseDataRaw) : StreamResponseData :=
  { id := raw.id
    author_id := raw.author_id
    url := tweetid2url raw.id
    text := raw.text
    created_at := raw.created_at
    conversation_id := raw.conversation_id
    referenced_tweets := raw.referenced_tweets
    public_metrics := raw.public_metrics
    entities := raw.entities }

/-- The annotation's one float field is finite (and, as for every parsed
value, within `f32` range). -/
def EntityAnnot.floatsFinite (a : EntityAnnot) : Bool :=
  a.probability.isFiniteInRange

def Entities.floatsFinite (e : Entities) : Bool :=
  match e.annotations with
  | none => true
  | some xs => xs.all EntityAnnot.floatsFinite

def StreamResponseData.floatsFinite (d : StreamResponseData) : Bool :=
  match d.entities with
  | none => true
  | some e => e.floatsFinite

/-- Every float field of the event is finite: the condition under which the
serialize/re-parse round trip can succeed (an infinite probability would
serialize as `null` and fail to re-parse). -/
def StreamResponse.floatsFinite (r : StreamResponse) : Bool :=
  r.data.floatsFinite

/-! ## Serialization (the derived `Serialize` impls, field order as declared) -/

def PublicMetrics.toJson (m : PublicMetrics) : Json :=
  .obj [("retweet_count", .num m.retweet_count), ("reply_count", .num m.reply_count),
        ("like_count", .num m.like_count), ("quote_count", .num m.quote_count)]

def ReferencedTweets.toJson (r : ReferencedTweets) : Json :=
  .obj [("id", .str r.id), ("type", .str r.reference_type)]

def EntityAnnot.toJson (a : EntityAnnot) : Json :=
  .obj [("start", .num a.start), ("end", .num a.«end»), ("probability", serF32 a.probability),
        ("type", .str a.annotation_type), ("normalized_text", .str a.normalized_text)]

def UrlImage.toJson (i : UrlImage) : Json :=
  .obj [("url", .str i.url), ("width", .num i.width), ("height", .num i.height)]

def EntityUrl.toJson (u : EntityUrl) : Json :=
  .obj [("start", .num u.start), ("end", .num u.«end»), ("url", .str u.url),
        ("expanded_url", .str u.expanded_url), ("display_url", .str u.display_url),
        ("unwound_url", serOpt .str u.unwound_url),
        ("images", serOpt (serVec UrlImage.toJson) u.images),
        ("status", serOpt (fun n => .num n) u.status),
        ("title", serOpt .str u.title), ("description", serOpt .str u.description)]

def EntityTag.toJson (t : EntityTag) : Json :=
  .obj [("start", .num t.start), ("end", .num t.«end»), ("tag", .str t.tag)]

def EntityMention.toJson (m : EntityMention) : Json :=
  .obj [("start", .num m.start), ("end", .num m.«end»), ("username", .str m.username)]

def Entities.toJson (e : Entities) : Json :=
  .obj [("annotations", serOpt (serVec EntityAnnot.toJson) e.annotations),
        ("urls", serOpt (serVec EntityUrl.toJson) e.urls),
        ("hashtags", serOpt (serVec EntityTag.toJson) e.hashtags),
        ("mentions", serOpt (serVec EntityMention.toJson) e.mentions),
        ("cashtags", serOpt (serVec EntityTag.toJson) e.cashtags)]

def RuleMatch.toJson (r : RuleMatch) : Json :=
  .obj [("id", .num r.id), ("tag", .str r.tag)]

def UserData.toJson (u : UserData) : Json :=
  .obj [("id", .str u.id), ("name", .str u.name), ("username", .str u.username),
        ("created_at", .str u.created_at)]

def StreamResponseIncludes.toJson (i : StreamResponseIncludes) : Json :=
  .obj [("users", serVec UserData.toJson i.users)]

/-- `StreamResponseData` derives `Serialize` directly (its `url : String` is a
required field of the output). -/
def StreamResponseData.toJson (d : StreamResponseData) : Json :=
  .obj [("id", .str d.id), ("author_id", .str d.author_id), ("url", .str d.url),
        ("text", .str d.text), ("created_at", .str d.created_at),
        ("conversation_id", .str d.conversation_id),
        ("referenced_tweets", serOpt (serVec ReferencedTweets.toJson) d.referenced_tweets),
        ("public_metrics", d.public_metrics.toJson),
        ("entities", serOpt Entities.toJson d.entities)]

def StreamResponse.toJson (r : StreamResponse) : Json :=
  .obj [("data", r.data.toJson), ("includes", r.includes.toJson),
        ("matching_rules", serOpt (serVec RuleMatch.toJson) r.matching_rules)]

/-! ## Deserialization (the derived `Deserialize` impls; unknown fields are
ignored because lookups are by name and nothing rejects extras) -/

def PublicMetrics.fromJson (j : Json) : DeResult PublicMetrics := do
  let fields ← asObj j
  let retweet_count ← usizeField fields "retweet_count"
  let reply_count ← usizeField fields "reply_count"
  let like_count ← usizeField fields "like_count"
  let quote_count ← usizeField fields "quote_count"
  pure ⟨retweet_count, reply_count, like_count, quote_count⟩

def ReferencedTweets.fromJson (j : Json) : DeResult ReferencedTweets := do
  let fields ← asObj j
  let id ← strField fields "id"
  let reference_type ← strField fields "type"
  pure ⟨id, reference_type⟩

def EntityAnnot.fromJson (j : Json) : DeResult EntityAnnot := do
  let fields ← asObj j
  let start ← usizeField fields "start"
  let e ← usizeField fields "end"
  let probability ← match reqField fields "probability" with
    | .error er => .error er
    | .ok jp => asF32 jp
  let annotation_type ← strField fields "type"
  let normalized_text ← strField fields "normalized_text"
  pure ⟨start, e, probability, annotation_type, normalized_text⟩

def UrlImage.fromJson (j : Json) : DeResult UrlImage := do
  let fields ← asObj j
  let url ← strField fields "url"
  let width ← usizeField fields "width"
  let height ← usizeField fields "height"
  pure ⟨url, width, height⟩

def EntityUrl.fromJson (j : Json) : DeResult EntityUrl := do
  let fields ← asObj j
  let start ← usizeField fields "start"
  let e ← usizeField fields "end"
  let url ← strField fields "url"
  let expanded_url ← strField fields "expanded_url"
  let display_url ← strField fields "display_url"
  let unwound_url ← optField asStr fields "unwound_url"
  let images ← optField (deArr UrlImage.fromJson) fields "images"
  let status ← optField asUsize fields "status"
  let title ← optField asStr fields "title"
  let description ← optField asStr fields "description"
  pure ⟨start, e, url, expanded_url, display_url, unwound_url, images, status, title, description⟩

def EntityTag.fromJson (j : Json) : DeResult EntityTag := do
  let fields ← asObj j
  let start ← usizeField fields "start"
  let e ← usizeField fields "end"
  let tag ← strField fields "tag"
  pure ⟨start, e, tag⟩

def EntityMention.fromJson (j : Json) : DeResult EntityMention := do
  let fields ← asObj j
  let start ← usizeField fields "start"
  let e ← usizeField fields "end"
  let username ← strField fields "username"
  pure ⟨start, e, username⟩

def Entities.fromJson (j : Json) : DeResult Entities := do
  let fields ← asObj j
  let annotations ← optField (deArr EntityAnnot.fromJson) fields "annotations"
  let urls ← optField (deArr EntityUrl.fromJson) fields "urls"
  let hashtags ← optField (deArr EntityTag.fromJson) fields "hashtags"
  let mentions ← optField (deArr EntityMention.fromJson) fields "mentions"
  let cashtags ← optField (deArr EntityTag.fromJson) fields "cashtags"
  pure ⟨annotations, urls, hashtags, mentions, cashtags⟩

def RuleMatch.fromJson (j : Json) : DeResult RuleMatch := do
  let fields ← asObj j
  let id ← usizeField fields "id"
  let tag ← strField fields "tag"
  pure ⟨id, tag⟩

def UserData.fromJson (j : Json) : DeResult UserData := do
  let fields ← asObj j
  let id ← strField fields "id"
  let name ← strField fields "name"
  let username ← strField fields "username"
  let created_at ← strField fields "created_at"
  pure ⟨id, name, username, created_at⟩

def StreamResponseIncludes.fromJson (j : Json) : DeResult StreamResponseIncludes := do
  let fields ← asObj j
  let users ← vecField UserData.fromJson fields "users"
  pure ⟨users⟩

/-- The derived `Deserialize` of the raw payload (`url` is optional here). -/
def StreamResponseDataRaw.fromJson (j : Json) : DeResult StreamResponseDataRaw := do
  let fields ← asObj j
  let id ← strField fields "id"
  let author_id ← strField fields "author_id"
  let url ← optField asStr fields "url"
  let text ← strField fields "text"
  let created_at ← strField fields "created_at"
  let conversation_id ← strField fields "conversation_id"
  let referenced_tweets ← optField (deArr ReferencedTweets.fromJson) fields "referenced_tweets"
  let public_metrics ← match reqField fields "public_metrics" with
    | .error e => .error e
    | .ok jp => PublicMetrics.fromJson jp
  let entities ← optField Entities.fromJson fields "entities"
  pure ⟨id, author_id, url, text, created_at, conversation_id, referenced_tweets,
        public_metrics, entities⟩

/-- stream_tweets.rs lines 155–163: the custom `Deserialize for
StreamResponseData` — deserialize the raw payload, then convert, recomputing
`url` from `id`. -/
def StreamResponseData.fromJson (j : Json) : DeResult StreamResponseData :=
  (StreamResponseDataRaw.fromJson j).map StreamResponseData.ofRaw

def StreamResponse.fromJson (j : Json) : DeResult StreamResponse := do
  let fields ← asObj j
  let ddata ← match reqField fields "data" with
    | .error e => .error e
    | .ok jd => StreamResponseData.fromJson jd
  let includes ← match reqField fields "includes" with
    | .error e => .error e
    | .ok ji => StreamResponseIncludes.fromJson ji
  let matching_rules ← optField (deArr RuleMatch.fromJson) fields "matching_rules"
  pure ⟨ddata, includes, matching_rules⟩

/-! ## Rate-limit headers (stream_tweets.rs, lines 58–98) -/

/-- `str::parse::<usize>` on a header value: an optional leading `+`, then one
or more ASCII digits, fitting in 64 bits. -/
def parseUsize (s : String) : Option Nat :=
  let cs := if s.data.head? = some (Char.ofNat 43) then s.data.tail else s.data
  if cs.isEmpty then none
  else if cs.all (fun c => 48 ≤ c.toNat ∧ c.toNat ≤ 57) then
    let n := cs.foldl (fun a c => a * 10 + (c.toNat - 48)) 0
    if n < 2 ^ 64 then some n else none
  else none

/-- `Duration::from_secs`, with durations counted in nanoseconds. -/
def durFromSecs (secs : Nat) : Nat := secs * 1000000000

/-- `HeaderMap::get`: first value bound to the name. -/
def getHeader (hm : List (String × String)) (name : String) : Option String :=
  match hm with
  | [] => none
  | (k, v) :: rest => if k = name then some v else getHeader rest name

inductive HeaderError where
  /-- A present header whose value does not parse as the expected integer. -/
  | notAnInteger (value : String)
deriving DecidableEq

structure RateLimitHeaders where
  limit : Option Nat
  /-- Seconds-since-epoch instant, as a `Duration` (nanoseconds here). -/
  reset : Option Nat
  remaining : Option Nat
deriving DecidableEq

/-- `RateLimitHeaders::from_headers`: each of the three headers is
independently optional, but a present value that fails to parse makes the
whole call fail (the `?` on `parse`). -/
def RateLimitHeaders.from_headers (hm : List (String × String)) :
    Except HeaderError RateLimitHeaders :=
  match getHeader hm "x-rate-limit-limit" with
  | some v =>
    match parseUsize v with
    | none => .error (.notAnInteger v)
    | some limit => fromLimit hm (some limit)
  | none => fromLimit hm none
where
  fromLimit (hm : List (String × String)) (limit : Option Nat) :
      Except HeaderError RateLimitHeaders :=
    match getHeader hm "x-rate-limit-reset" with
    | some v =>
      match parseUsize v with
      | none => .error (.notAnInteger v)
      | some reset => fromReset hm limit (some (durFromSecs reset))
    | none => fromReset hm limit none
  fromReset (hm : List (String × String)) (limit : Option Nat) (reset : Option Nat) :
      Except HeaderError RateLimitHeaders :=
    match getHeader hm "x-rate-limit-remaining" with
    | some v =>
      match parseUsize v with
      | none => .error (.notAnInteger v)
      | some remaining => .ok ⟨limit, reset, some remaining⟩
    | none => .ok ⟨limit, reset, none⟩

/-- `RateLimitHeaders::duration_until_reset`. `now` is the result of
`SystemTime::now().duration_since(UNIX_EPOCH)` (nanoseconds since the epoch);
`Duration::checked_sub` yields `Some` exactly when the subtraction does not go
negative. -/
def RateLimitHeaders.duration_until_reset (h : RateLimitHeaders)
    (now : Except Unit Nat) : Option Nat :=
  match h.remaining, h.reset, now with
  | some 0, some reset, .ok n => if n ≤ reset then some (reset - n) else none
  | _, _, _ => none

/-! ## Chunk classification (stream_tweets.rs, lines 36–54 and 100–115) -/

/-- `reqwest::Error`, identified by a message. -/
structure ReqwestError where
  msg : String
deriving DecidableEq

structure ParseError where
  msg : String
  source : SerdeError
deriving DecidableEq

inductive StreamError where
  | smallChunk
  | reqwest (e : ReqwestError)
  | parse (e : ParseError)
deriving DecidableEq

/-- One hex digit of `format!` with lowercase `x`. -/
def hexChar (n : Nat) : Char :=
  if n < 10 then Char.ofNat (48 + n) else Char.ofNat (87 + n)

/-- How the `bytes` crate's `Debug` impl escapes one byte of a `Bytes` value. -/
def byteEscape (b : UInt8) : String :=
  if b = 10 then "\\n"
  else if b = 13 then "\\r"
  else if b = 9 then "\\t"
  else if b = 92 then "\\\\"
  else if b = 34 then "\\\""
  else if b = 0 then "\\0"
  else if 32 ≤ b.toNat ∧ b.toNat < 127 then String.singleton (Char.ofNat b.toNat)
  else "\\x" ++ String.singleton (hexChar (b.toNat / 16)) ++ String.singleton (hexChar (b.toNat % 16))

/-- `format!` of a `Bytes` chunk with the Debug specifier: a `b"…"` literal
with every byte escaped as above. -/
def bytesDebugFmt (bs : List UInt8) : String :=
  "b\"" ++ String.join (bs.map byteEscape) ++ "\""

/-- The bytes of a chunk read as an ASCII string (for comparing a chunk with
the message that is supposed to carry it). -/
def bytesAsString (bs : List UInt8) : String :=
  String.mk (bs.map (fun b => Char.ofNat b.toNat))

/-- `serde_json::from_slice::<StreamResponse>`: the lexical layer
(`textToJson`, bytes → JSON tree) is a parameter; the schema layer is
`StreamResponse.fromJson`. -/
def from_slice (textToJson : List UInt8 → DeResult Json) (chunk : List UInt8) :
    DeResult StreamResponse :=
  match textToJson chunk with
  | .error e => .error e
  | .ok j => StreamResponse.fromJson j

/-- The `Ok` branch of the per-chunk closure in `stream_data` (lines 39–51):
a chunk of fewer than 10 bytes is `SmallChunk`; otherwise parse it, and on
failure build a `ParseError` whose `msg` is `format!` of the chunk with the
Debug specifier plus two newlines. -/
def classify (textToJson : List UInt8 → DeResult Json) (chunk : List UInt8) :
    Except StreamError StreamResponse :=
  if chunk.length < 10 then .error .smallChunk
  else
    match from_slice textToJson chunk with
    | .ok r => .ok r
    | .error err => .error (.parse ⟨bytesDebugFmt chunk ++ "\n\n", err⟩)

/-- The whole closure mapped over `bytes_stream()` (lines 38–53): a transport
error while reading a chunk becomes `StreamError::Reqwest`. -/
def stream_map_chunk (textToJson : List UInt8 → DeResult Json)
    (chunk : Except ReqwestError (List UInt8)) : Except StreamError StreamResponse :=
  match chunk with
  | .ok chunk => classify textToJson chunk
  | .error err => .error (.reqwest err)

/-! ## stream_data (stream_tweets.rs, lines 12–56) -/

/-- What the network returns for the one `GET` that `stream_data` sends:
either a connect-time failure (the `?` on `send().await`) or a response with
a status, headers and a body chunk sequence. The status is carried so that
what `stream_data` does (and does not do) with it can be stated. -/
structure HttpResponse where
  status : Nat
  headers : List (String × String)
  chunks : List (Except ReqwestError (List UInt8))
deriving DecidableEq

inductive StreamDataError where
  /-- A network-level failure of `send().await`. -/
  | transport (e : ReqwestError)
  /-- A malformed rate-limit header (the `?` on `from_headers`). -/
  | header (e : HeaderError)
deriving DecidableEq

/-- One open connection attempt's result: the rate-limit snapshot captured at
connect time plus the classified chunk sequence. -/
structure Session where
  rate_limit : RateLimitHeaders
  chunks : List (Except StreamError StreamResponse)
deriving DecidableEq

/-- `stream_data`: propagate a connect failure; parse the rate-limit headers
(failure fails the call); otherwise return the snapshot and the classified,
lazily-mapped body. The response status is never inspected. -/
def stream_data (textToJson : List UInt8 → DeResult Json)
    (send : Except ReqwestError HttpResponse) : Except StreamDataError Session :=
  match send with
  | .error e => .error (.transport e)
  | .ok res =>
    match RateLimitHeaders.from_headers res.headers with
    | .error e => .error (.header e)
    | .ok rate_limit => .ok ⟨rate_limit, res.chunks.map (stream_map_chunk textToJson)⟩

/-! ## The reconnection controller (zmq_publisher.rs, `main`)

The loop at lines 102–168 of the example, driven here by an explicit
environment: one `Except StreamDataError Session` per `stream_data` call the
program makes (head = the initial connect at line 94, the rest consumed in
order by reconnects at line 161), and one `Bool` per ZeroMQ send (the
`Result` of `publisher.send`/`send_multipart`, which the code discards with
`.ok()`). `serde_json::to_string` on an already-parsed event is total for
these types, so the `if let Ok(msg)` at line 105 is always taken and the sink
trace records the event each sent message serializes. The rate-limit sleep at
lines 155–159 only delays execution — it changes no counter and no trace — so
it is not represented. -/

structure ControllerOpts where
  limit : Option Nat
  max_resets : Option Nat
deriving DecidableEq

/-- The counters the loop owns: `summary.processed`, `summary.errors` and
`connection_resets`. -/
structure Counters where
  processed : Nat
  errors : Nat
  resets : Nat
deriving DecidableEq

inductive Outcome where
  /-- `stream.next()` returned `None`: the server closed the stream. -/
  | streamEnded
  /-- The `finish` break after reaching the configured tweet limit. -/
  | limitReached
  /-- The line-151 break: maximum number of connection resets reached. -/
  | maxResetsReached
  /-- The `?` at line 94 or 161: a failed `stream_data` call ends `main`. -/
  | connectFailed (e : StreamDataError)
  /-- Environment artifact: the connect script ran out (never reached by any
  run stated in this file). -/
  | scriptEnded
deriving DecidableEq

/-- What one session's drive produces: updated counters, events sent to the
sink, the counters after each loop iteration, the unconsumed send results,
and either a terminal outcome or a reconnect request (`none`). -/
structure SessionOut where
  counters : Counters
  sink : List StreamResponse
  trace : List Counters
  sinkResults : List Bool
  next : Option Outcome

def popSink : List Bool → List Bool
  | [] => []
  | _ :: r => r

/-- Drive the `while let Some(chunk) = stream.next().await` loop over one
session's chunks (zmq_publisher.rs lines 102–167), up to termination or to a
reconnect request from the `Reqwest` arm. -/
def runSession (opts : ControllerOpts) (c : Counters) (sinkResults : List Bool) :
    List (Except StreamError StreamResponse) → SessionOut
  | [] => ⟨c, [], [], sinkResults, some .streamEnded⟩
  | chunk :: rest =>
    match chunk with
    | .ok tweet_data =>
      -- one send per event; its result is discarded by `.ok()`
      let sinkResults' := popSink sinkResults
      let c' := { c with processed := c.processed + 1 }
      if opts.limit = some c'.processed then
        ⟨c', [tweet_data], [c'], sinkResults', some .limitReached⟩
      else
        let r := runSession opts c' sinkResults' rest
        ⟨r.counters, tweet_data :: r.sink, c' :: r.trace, r.sinkResults, r.next⟩
    | .error .smallChunk =>
      -- line 130: silently skipped
      let r := runSession opts c sinkResults rest
      ⟨r.counters, r.sink, c :: r.trace, r.sinkResults, r.next⟩
    | .error (.parse _) =>
      -- lines 131–137: report and count, keep streaming
      let c' := { c with errors := c.errors + 1 }
      let r := runSession opts c' sinkResults rest
      ⟨r.counters, r.sink, c' :: r.trace, r.sinkResults, r.next⟩
    | .error (.reqwest _) =>
      -- lines 138–166: count, then reconnect unless the budget is exhausted
      let c' := { c with errors := c.errors + 1 }
      match opts.max_resets with
      | some max_resets =>
        if max_resets ≤ c'.resets then ⟨c', [], [c'], sinkResults, some .maxResetsReached⟩
        else ⟨c', [], [c'], sinkResults, none⟩
      | none => ⟨c', [], [c'], sinkResults, none⟩

structure RunResult where
  counters : Counters
  sink : List StreamResponse
  trace : List Counters
  outcome : Outcome
deriving DecidableEq

/-- Drive sessions, consuming one pending connect outcome per reconnect; a
successful reconnect increments `connection_resets` (line 163), a failed one
ends `main` through the `?` at line 161. The rest of the failed session's
chunk sequence is abandoned (the `stream` variable is replaced). -/
def runConnects (opts : ControllerOpts) :
    List (Except StreamDataError Session) → Counters → List Bool →
    List (Except StreamError StreamResponse) → RunResult
  | pending, c, sinkResults, chunks =>
    let s := runSession opts c sinkResults chunks
    match s.next with
    | some o => ⟨s.counters, s.sink, s.trace, o⟩
    | none =>
      match pending with
      | [] => ⟨s.counters, s.sink, s.trace, .scriptEnded⟩
      | .error e :: _ => ⟨s.counters, s.sink, s.trace, .connectFailed e⟩
      | .ok sess :: pending' =>
        let c' := { s.counters with resets := s.counters.resets + 1 }
        let r := runConnects opts pending' c' s.sinkResults sess.chunks
        ⟨r.counters, s.sink ++ r.sink, s.trace ++ c' :: r.trace, r.outcome⟩

/-- The whole of `main` after option parsing: the initial `stream_data` call
(line 94, whose failure ends the program), then the loop. -/
def runController (opts : ControllerOpts) (sinkResults : List Bool)
    (connects : List (Except StreamDataError Session)) : RunResult :=
  match connects with
  | [] => ⟨⟨0, 0, 0⟩, [], [], .scriptEnded⟩
  | .error e :: _ => ⟨⟨0, 0, 0⟩, [], [], .connectFailed e⟩
  | .ok sess :: pending => runConnects opts pending ⟨0, 0, 0⟩ sinkResults sess.chunks

/-! ## Concrete sample values used to instantiate the statements -/

def asciiBytes (s : String) : List UInt8 := s.data.map (fun c => UInt8.ofNat c.toNat)

def sampleA : StreamResponse :=
  { data := { id := "1001", author_id := "99",
              url := "https://twitter.com/i/web/status/1001", text := "hello",
              created_at := "2021-05-14T00:00:00.000Z", conversation_id := "1001",
              referenced_tweets := none, public_metrics := ⟨1, 2, 3, 4⟩,
              entities := none }
    includes := ⟨[⟨"99", "Ada", "ada", "2021-01-01T00:00:00.000Z"⟩]⟩
    matching_rules := some [⟨7, "rust"⟩] }

def sampleB : StreamResponse :=
  { data := { id := "1002", author_id := "99",
              url := "https://twitter.com/i/web/status/1002", text := "world",
              created_at := "2021-05-14T00:00:01.000Z", conversation_id := "1002",
              referenced_tweets := none, public_metrics := ⟨0, 0, 0, 0⟩,
              entities := none }
    includes := ⟨[⟨"99", "Ada", "ada", "2021-01-01T00:00:00.000Z"⟩]⟩
    matching_rules := none }

/-- A JSON payload that parses to `sampleA`: it has no `url` member, an
unknown extra member, and absent optional members. -/
def sampleJsonA : Json :=
  .obj [("data", .obj [("id", .str "1001"), ("author_id", .str "99"),
                       ("text", .str "hello"),
                       ("created_at", .str "2021-05-14T00:00:00.000Z"),
                       ("conversation_id", .str "1001"),
                       ("public_metrics",
                        .obj [("retweet_count", .num 1), ("reply_count", .num 2),
                              ("like_count", .num 3), ("quote_count", .num 4)]),
                       ("some_future_member", .null)]),
        ("includes",
         .obj [("users", .arr [.obj [("id", .str "99"), ("name", .str "Ada"),
                                     ("username", .str "ada"),
                                     ("created_at", .str "2021-01-01T00:00:00.000Z")]])]),
        ("matching_rules", .arr [.obj [("id", .num 7), ("tag", .str "rust")]])]

/-- An event with entity annotations whose probability is a finite float. -/
def sampleC : StreamResponse :=
  { data := { id := "1003", author_id := "99",
              url := "https://twitter.com/i/web/status/1003", text := "thing",
              created_at := "2021-05-14T00:00:02.000Z", conversation_id := "1003",
              referenced_tweets := none, public_metrics := ⟨0, 0, 0, 0⟩,
              entities := some ⟨some [⟨0, 5, .finite (mkRat 97 100), "Product", "thing"⟩],
                                none, none, none, none⟩ }
    includes := ⟨[⟨"99", "Ada", "ada", "2021-01-01T00:00:00.000Z"⟩]⟩
    matching_rules := none }

/-- A payload that parses to `sampleC` (probability `0.97`, in range). -/
def sampleJsonC : Json :=
  .obj [("data", .obj [("id", .str "1003"), ("author_id", .str "99"),
                       ("text", .str "thing"),
                       ("created_at", .str "2021-05-14T00:00:02.000Z"),
                       ("conversation_id", .str "1003"),
                       ("public_metrics",
                        .obj [("retweet_count", .num 0), ("reply_count", .num 0),
                              ("like_count", .num 0), ("quote_count", .num 0)]),
                       ("entities",
                        .obj [("annotations",
                               .arr [.obj [("start", .num 0), ("end", .num 5),
                                           ("probability", .num (mkRat 97 100)),
                                           ("type", .str "Product"),
                                           ("normalized_text", .str "thing")]])])]),
        ("includes",
         .obj [("users", .arr [.obj [("id", .str "99"), ("name", .str "Ada"),
                                     ("username", .str "ada"),
                                     ("created_at", .str "2021-01-01T00:00:00.000Z")]])])]

/-- The event `hugeProbJson` parses to: the out-of-range probability has been
cast to `+∞`. -/
def hugeProbEvent : StreamResponse :=
  { data := { id := "1004", author_id := "99",
              url := "https://twitter.com/i/web/status/1004", text := "thing",
              created_at := "2021-05-14T00:00:03.000Z", conversation_id := "1004",
              referenced_tweets := none, public_metrics := ⟨0, 0, 0, 0⟩,
              entities := some ⟨some [⟨0, 5, .inf false, "Product", "thing"⟩],
                                none, none, none, none⟩ }
    includes := ⟨[⟨"99", "Ada", "ada", "2021-01-01T00:00:00.000Z"⟩]⟩
    matching_rules := none }

/-- A payload like `sampleJsonC` but with `"probability": 1e40` — a valid
event payload (the program parses it, `1e40` being finite in `f64` but
beyond `f32::MAX`, so the cast saturates to infinity). -/
def hugeProbJson : Json :=
  .obj [("data", .obj [("id", .str "1004"), ("author_id", .str "99"),
                       ("text", .str "thing"),
                       ("created_at", .str "2021-05-14T00:00:03.000Z"),
                       ("conversation_id", .str "1004"),
                       ("public_metrics",
                        .obj [("retweet_count", .num 0), ("reply_count", .num 0),
                              ("like_count", .num 0), ("quote_count", .num 0)]),
                       ("entities",
                        .obj [("annotations",
                               .arr [.obj [("start", .num 0), ("end", .num 5),
                                           ("probability", .num ((10000000000000000000000000000000000000000 : Rat))),
                                           ("type", .str "Product"),
                                           ("normalized_text", .str "thing")]])])]),
        ("includes",
         .obj [("users", .arr [.obj [("id", .str "99"), ("name", .str "Ada"),
                                     ("username", .str "ada"),
                                     ("created_at", .str "2021-01-01T00:00:00.000Z")]])])]

def sampleReqErr : ReqwestError := ⟨"connection reset by peer"⟩

def sampleParseErr : ParseError := ⟨"bad payload", .lexError "expected value"⟩

/-- The C1 scenario session: TooSmall, Event(A), ParseFailure, Event(B),
TransportFailure. -/
def c1Session : Session :=
  ⟨⟨none, none, none⟩,
   [.error .smallChunk, .ok sampleA, .error (.parse sampleParseErr), .ok sampleB,
    .error (.reqwest sampleReqErr)]⟩

/-- A session whose stream immediately fails at the transport level. -/
def failSession : Session := ⟨⟨none, none, none⟩, [.error (.reqwest sampleReqErr)]⟩

/-- A session that delivers one good event and then ends. -/
def goodSession : Session := ⟨⟨none, none, none⟩, [.ok sampleA]⟩

/-- A connect script that fails transport `n` times and then succeeds. -/
def failNconnects (n : Nat) : List (Except StreamDataError Session) :=
  List.replicate n (.ok failSession) ++ [.ok goodSession]

def c8Session : Session := ⟨⟨none, none, none⟩, [.ok sampleA]⟩

/-- A 12-byte chunk that is valid JSON text but not a `StreamResponse`. -/
def c3Chunk : List UInt8 := asciiBytes "[\"abcdefgh\"]"

/-- A concrete lexical layer for instantiating the chunk statements: it maps
`c3Chunk` to the JSON tree its text denotes and rejects everything else. -/
def sampleTextToJson : List UInt8 → DeResult Json :=
  fun bs => if bs = c3Chunk then .ok (.arr [.str "abcdefgh"]) else .error (.lexError "invalid")

/-- A non-success response: status 401, no rate-limit headers, empty body. -/
def c5Response401 : HttpResponse := ⟨401, [], []⟩

def c9BadHeaders : List (String × String) := [("x-rate-limit-limit", "not-a-number")]

/-! ## Round-trip lemmas for the schema (serialize then re-parse) -/

theorem asUsize_natCast (n : Nat) : asUsize (Json.num (n : Rat)) = .ok n := by
  simp [asUsize]

theorem deList_serVec {α : Type} (de : Json → DeResult α) (ser : α → Json)
    (h : ∀ x, de (ser x) = .ok x) (xs : List α) :
    deList de (xs.map ser) = .ok xs := by
  induction xs with
  | nil => rfl
  | cons x rest ih => simp [deList, h, ih]

theorem deArr_serVec {α : Type} (de : Json → DeResult α) (ser : α → Json)
    (h : ∀ x, de (ser x) = .ok x) (xs : List α) :
    deArr de (Json.arr (xs.map ser)) = .ok xs := by
  simp [deArr, deList_serVec de ser h]

theorem deOptVal_eq {α : Type} (de : Json → DeResult α) (j : Json) (x : α)
    (hj : j ≠ Json.null) (h : de j = .ok x) : deOptVal de j = .ok (some x) := by
  cases j <;> simp_all [deOptVal]

theorem deOptVal_null {α : Type} (de : Json → DeResult α) :
    deOptVal de Json.null = .ok none := rfl

theorem deOptVal_str (s : String) : deOptVal asStr (Json.str s) = .ok (some s) := rfl

theorem deOptVal_num_nat (n : Nat) : deOptVal asUsize (Json.num (n : Rat)) = .ok (some n) :=
  deOptVal_eq _ _ _ (fun h => Json.noConfusion h) (asUsize_natCast n)

theorem deOptVal_serVec {α : Type} (de : Json → DeResult α) (ser : α → Json)
    (h : ∀ x, de (ser x) = .ok x) (xs : List α) :
    deOptVal (deArr de) (Json.arr (xs.map ser)) = .ok (some xs) :=
  deOptVal_eq _ _ _ (fun h => Json.noConfusion h) (deArr_serVec de ser h xs)

/-- Printing then re-parsing an `f32` is the identity exactly on finite
in-range values (an infinity prints as `null`, which no longer parses). -/
theorem asF32_serF32 (v : F32) (h : v.isFiniteInRange = true) :
    asF32 (serF32 v) = .ok v := by
  match v with
  | .finite q =>
    simp only [F32.isFiniteInRange, decide_eq_true_eq] at h
    have h1 : ¬ f32CastInfBound ≤ q := not_le.mpr h.2
    have h2 : ¬ q ≤ -f32CastInfBound := not_le.mpr h.1
    simp [serF32, asF32, h1, h2]
  | .inf b => simp [F32.isFiniteInRange] at h

theorem deList_serVec_mem {α : Type} (de : Json → DeResult α) (ser : α → Json)
    (xs : List α) (h : ∀ x ∈ xs, de (ser x) = .ok x) :
    deList de (xs.map ser) = .ok xs := by
  induction xs with
  | nil => rfl
  | cons x rest ih =>
    simp [deList, h x (by simp), ih (fun y hy => h y (by simp [hy]))]

theorem deArr_serVec_mem {α : Type} (de : Json → DeResult α) (ser : α → Json)
    (xs : List α) (h : ∀ x ∈ xs, de (ser x) = .ok x) :
    deArr de (Json.arr (xs.map ser)) = .ok xs := by
  simp [deArr, deList_serVec_mem de ser xs h]

theorem deOptVal_serVec_mem {α : Type} (de : Json → DeResult α) (ser : α → Json)
    (xs : List α) (h : ∀ x ∈ xs, de (ser x) = .ok x) :
    deOptVal (deArr de) (Json.arr (xs.map ser)) = .ok (some xs) :=
  deOptVal_eq _ _ _ (fun hh => Json.noConfusion hh) (deArr_serVec_mem de ser xs h)

theorem pm_roundtrip (m : PublicMetrics) :
    PublicMetrics.fromJson m.toJson = .ok m := by
  simp [PublicMetrics.fromJson, PublicMetrics.toJson, asObj, usizeField, reqField, getField,
    asUsize_natCast, exceptBind_ok, exceptPure]

theorem refTweets_roundtrip (r : ReferencedTweets) :
    ReferencedTweets.fromJson r.toJson = .ok r := by
  simp [ReferencedTweets.fromJson, ReferencedTweets.toJson, asObj, strField, reqField,
    getField, asStr, exceptBind_ok, exceptPure]

theorem entityAnnot_roundtrip (a : EntityAnnot) (hf : a.floatsFinite = true) :
    EntityAnnot.fromJson a.toJson = .ok a := by
  have hp : asF32 (serF32 a.probability) = .ok a.probability :=
    asF32_serF32 a.probability hf
  simp [EntityAnnot.fromJson, EntityAnnot.toJson, asObj, strField, usizeField, reqField,
    getField, asStr, hp, asUsize_natCast, exceptBind_ok, exceptPure]

theorem urlImage_roundtrip (i : UrlImage) :
    UrlImage.fromJson i.toJson = .ok i := by
  simp [UrlImage.fromJson, UrlImage.toJson, asObj, strField, usizeField, reqField, getField,
    asStr, asUsize_natCast, exceptBind_ok, exceptPure]

set_option maxHeartbeats 1000000 in
theorem entityUrl_roundtrip (u : EntityUrl) :
    EntityUrl.fromJson u.toJson = .ok u := by
  obtain ⟨s, e, url, eu, du, uw, im, st, ti, de⟩ := u
  cases uw <;> cases im <;> cases st <;> cases ti <;> cases de <;>
    simp [EntityUrl.fromJson, EntityUrl.toJson, asObj, strField, usizeField, reqField,
      getField, optField, serOpt, serVec, asStr, asUsize_natCast, deOptVal_null,
      deOptVal_str, deOptVal_num_nat,
      deOptVal_serVec UrlImage.fromJson UrlImage.toJson urlImage_roundtrip,
      exceptBind_ok, exceptPure]

theorem entityTag_roundtrip (t : EntityTag) :
    EntityTag.fromJson t.toJson = .ok t := by
  simp [EntityTag.fromJson, EntityTag.toJson, asObj, strField, usizeField, reqField,
    getField, asStr, asUsize_natCast, exceptBind_ok, exceptPure]

theorem entityMention_roundtrip (m : EntityMention) :
    EntityMention.fromJson m.toJson = .ok m := by
  simp [EntityMention.fromJson, EntityMention.toJson, asObj, strField, usizeField, reqField,
    getField, asStr, asUsize_natCast, exceptBind_ok, exceptPure]

theorem entities_roundtrip (e : Entities) (hf : e.floatsFinite = true) :
    Entities.fromJson e.toJson = .ok e := by
  obtain ⟨an, ur, ha, me, ca⟩ := e
  cases an with
  | none =>
    cases ur <;> cases ha <;> cases me <;> cases ca <;>
      simp [Entities.fromJson, Entities.toJson, asObj, reqField, getField, optField,
        serOpt, serVec, deOptVal_null,
        deOptVal_serVec EntityUrl.fromJson EntityUrl.toJson entityUrl_roundtrip,
        deOptVal_serVec EntityTag.fromJson EntityTag.toJson entityTag_roundtrip,
        deOptVal_serVec EntityMention.fromJson EntityMention.toJson entityMention_roundtrip,
        exceptBind_ok, exceptPure]
  | some xs =>
    have hall : xs.all EntityAnnot.floatsFinite = true := hf
    have hx : ∀ x ∈ xs, EntityAnnot.fromJson x.toJson = .ok x := fun x hxm =>
      entityAnnot_roundtrip x (List.all_eq_true.mp hall x hxm)
    have han := deOptVal_serVec_mem EntityAnnot.fromJson EntityAnnot.toJson xs hx
    cases ur <;> cases ha <;> cases me <;> cases ca <;>
      simp [Entities.fromJson, Entities.toJson, asObj, reqField, getField, optField,
        serOpt, serVec, deOptVal_null, han,
        deOptVal_serVec EntityUrl.fromJson EntityUrl.toJson entityUrl_roundtrip,
        deOptVal_serVec EntityTag.fromJson EntityTag.toJson entityTag_roundtrip,
        deOptVal_serVec EntityMention.fromJson EntityMention.toJson entityMention_roundtrip,
        exceptBind_ok, exceptPure]

theorem ruleMatch_roundtrip (r : RuleMatch) :
    RuleMatch.fromJson r.toJson = .ok r := by
  simp [RuleMatch.fromJson, RuleMatch.toJson, asObj, strField, usizeField, reqField,
    getField, asStr, asUsize_natCast, exceptBind_ok, exceptPure]

theorem userData_roundtrip (u : UserData) :
    UserData.fromJson u.toJson = .ok u := by
  simp [UserData.fromJson, UserData.toJson, asObj, strField, reqField, getField, asStr,
    exceptBind_ok, exceptPure]

theorem includes_roundtrip (i : StreamResponseIncludes) :
    StreamResponseIncludes.fromJson i.toJson = .ok i := by
  simp [StreamResponseIncludes.fromJson, StreamResponseIncludes.toJson, asObj, vecField,
    reqField, getField, serVec, deArr_serVec UserData.fromJson UserData.toJson userData_roundtrip,
    exceptBind_ok, exceptPure]

theorem entities_toJson_ne_null (v : Entities) : Entities.toJson v ≠ Json.null := by
  simp [Entities.toJson]

/-- Re-parsing a serialized `StreamResponseData` (with finite floats)
recovers the raw payload with `url` present (as the serialized `url`
string). -/
theorem dataRaw_of_serialized (d : StreamResponseData) (hf : d.floatsFinite = true) :
    StreamResponseDataRaw.fromJson d.toJson =
      .ok ⟨d.id, d.author_id, some d.url, d.text, d.created_at, d.conversation_id,
           d.referenced_tweets, d.public_metrics, d.entities⟩ := by
  obtain ⟨id, aid, url, text, cat, cid, rt, pm, en⟩ := d
  cases en with
  | none =>
    cases rt <;>
      simp [StreamResponseDataRaw.fromJson, StreamResponseData.toJson, asObj, strField,
        reqField, getField, optField, serOpt, serVec, asStr, pm_roundtrip, deOptVal_null,
        deOptVal_str,
        deOptVal_serVec ReferencedTweets.fromJson ReferencedTweets.toJson refTweets_roundtrip,
        exceptBind_ok, exceptPure]
  | some v =>
    have hv : v.floatsFinite = true := hf
    have hen := deOptVal_eq Entities.fromJson (Entities.toJson v) v
      (entities_toJson_ne_null v) (entities_roundtrip v hv)
    cases rt <;>
      simp [StreamResponseDataRaw.fromJson, StreamResponseData.toJson, asObj, strField,
        reqField, getField, optField, serOpt, serVec, asStr, pm_roundtrip, deOptVal_null,
        deOptVal_str, hen,
        deOptVal_serVec ReferencedTweets.fromJson ReferencedTweets.toJson refTweets_roundtrip,
        exceptBind_ok, exceptPure]

theorem data_roundtrip (d : StreamResponseData) (h : d.url = tweetid2url d.id)
    (hf : d.floatsFinite = true) :
    StreamResponseData.fromJson d.toJson = .ok d := by
  rw [StreamResponseData.fromJson, dataRaw_of_serialized d hf]
  obtain ⟨id, aid, url, text, cat, cid, rt, pm, en⟩ := d
  simp only [Except.map]
  simp_all [StreamResponseData.ofRaw]

theorem streamResponse_roundtrip (r : StreamResponse)
    (h : r.data.url = tweetid2url r.data.id) (hf : r.floatsFinite = true) :
    StreamResponse.fromJson r.toJson = .ok r := by
  obtain ⟨d, inc, mr⟩ := r
  cases mr <;>
    simp [StreamResponse.fromJson, StreamResponse.toJson, asObj, reqField, getField,
      optField, serOpt, serVec, data_roundtrip d h hf, includes_roundtrip, deOptVal_null,
      deOptVal_serVec RuleMatch.fromJson RuleMatch.toJson ruleMatch_roundtrip,
      exceptBind_ok, exceptPure]

/-! ## Inversion: a successfully parsed event always has the recomputed url -/

theorem data_fromJson_url (j : Json) (d : StreamResponseData)
    (h : StreamResponseData.fromJson j = .ok d) : d.url = tweetid2url d.id := by
  rw [StreamResponseData.fromJson, exceptMap_ok_iff] at h
  obtain ⟨raw, _, hd⟩ := h
  subst hd
  rfl

theorem streamResponse_fromJson_url (j : Json) (r : StreamResponse)
    (h : StreamResponse.fromJson j = .ok r) : r.data.url = tweetid2url r.data.id := by
  rw [StreamResponse.fromJson] at h
  simp only [bind, Except.bind, pure, Except.pure] at h
  iterate 8 (all_goals try split at h)
  any_goals exact Except.noConfusion h
  injection h with h
  subst h
  exact data_fromJson_url _ _ (by assumption)

/-! ## Controller lemmas -/

theorem runSession_resets (opts : ControllerOpts)
    (chunks : List (Except StreamError StreamResponse)) :
    ∀ c sr, (runSession opts c sr chunks).counters.resets = c.resets ∧
      ∀ x ∈ (runSession opts c sr chunks).trace, x.resets = c.resets := by
  induction chunks with
  | nil => intro c sr; simp [runSession]
  | cons ch rest ih =>
    intro c sr
    match ch with
    | .ok t =>
      simp only [runSession]
      split
      · simp
      · refine ⟨(ih {c with processed := c.processed + 1} (popSink sr)).1, ?_⟩
        intro x hx
        simp only [List.mem_cons] at hx
        rcases hx with rfl | hx
        · rfl
        · exact (ih {c with processed := c.processed + 1} (popSink sr)).2 x hx
    | .error .smallChunk =>
      simp only [runSession]
      refine ⟨(ih c sr).1, ?_⟩
      intro x hx
      simp only [List.mem_cons] at hx
      rcases hx with rfl | hx
      · rfl
      · exact (ih c sr).2 x hx
    | .error (.parse pe) =>
      simp only [runSession]
      refine ⟨(ih {c with errors := c.errors + 1} sr).1, ?_⟩
      intro x hx
      simp only [List.mem_cons] at hx
      rcases hx with rfl | hx
      · rfl
      · exact (ih {c with errors := c.errors + 1} sr).2 x hx
    | .error (.reqwest e) =>
      simp only [runSession]
      split
      · split <;> simp
      · simp

/-- A reconnect request can only come from the `Reqwest` arm with the budget
guard false, so when a maximum is configured the resets counter is still
strictly below it. -/
theorem runSession_next_none (opts : ControllerOpts)
    (chunks : List (Except StreamError StreamResponse)) :
    ∀ c sr m, opts.max_resets = some m →
      (runSession opts c sr chunks).next = none → c.resets < m := by
  induction chunks with
  | nil => intro c sr m hm h; simp [runSession] at h
  | cons ch rest ih =>
    intro c sr m hm h
    match ch with
    | .ok t =>
      simp only [runSession] at h
      split at h
      · simp at h
      · exact ih {c with processed := c.processed + 1} (popSink sr) m hm h
    | .error .smallChunk =>
      simp only [runSession] at h
      exact ih c sr m hm h
    | .error (.parse pe) =>
      simp only [runSession] at h
      exact ih {c with errors := c.errors + 1} sr m hm h
    | .error (.reqwest e) =>
      simp only [runSession, hm] at h
      split at h
      · simp at h
      · next hguard => exact Nat.not_le.mp hguard

theorem runConnects_resets_le (opts : ControllerOpts) (m : Nat)
    (hm : opts.max_resets = some m) :
    ∀ pending c sr chunks, c.resets ≤ m →
      (runConnects opts pending c sr chunks).counters.resets ≤ m ∧
      ∀ x ∈ (runConnects opts pending c sr chunks).trace, x.resets ≤ m := by
  intro pending
  induction pending with
  | nil =>
    intro c sr chunks hc
    have hs := runSession_resets opts chunks c sr
    simp only [runConnects]
    split
    · exact ⟨by rw [hs.1]; exact hc, fun x hx => by rw [hs.2 x hx]; exact hc⟩
    · exact ⟨by rw [hs.1]; exact hc, fun x hx => by rw [hs.2 x hx]; exact hc⟩
  | cons item pending' ih =>
    intro c sr chunks hc
    have hs := runSession_resets opts chunks c sr
    cases hnext : (runSession opts c sr chunks).next with
    | some o =>
      unfold runConnects
      simp only [hnext]
      exact ⟨by rw [hs.1]; exact hc, fun x hx => by rw [hs.2 x hx]; exact hc⟩
    | none =>
      have hlt : c.resets < m := runSession_next_none opts chunks c sr m hm hnext
      cases item with
      | error e =>
        unfold runConnects
        simp only [hnext]
        exact ⟨by rw [hs.1]; exact hc, fun x hx => by rw [hs.2 x hx]; exact hc⟩
      | ok sess =>
        unfold runConnects
        simp only [hnext]
        have hc' : ({(runSession opts c sr chunks).counters with
            resets := (runSession opts c sr chunks).counters.resets + 1} : Counters).resets ≤ m := by
          show (runSession opts c sr chunks).counters.resets + 1 ≤ m
          rw [hs.1]; omega
        obtain ⟨ih1, ih2⟩ := ih _ _ sess.chunks hc'
        refine ⟨ih1, ?_⟩
        intro x hx
        simp only [List.mem_append, List.mem_cons] at hx
        rcases hx with hx | rfl | hx
        · rw [hs.2 x hx]; exact hc
        · exact hc'
        · exact ih2 x hx

/-- The budget invariant at the whole-run level. -/
theorem runController_resets_le (opts : ControllerOpts) (m : Nat)
    (hm : opts.max_resets = some m) (sr : List Bool)
    (connects : List (Except StreamDataError Session)) :
    (runController opts sr connects).counters.resets ≤ m ∧
    ∀ x ∈ (runController opts sr connects).trace, x.resets ≤ m := by
  match connects with
  | [] => simp [runController]
  | .error e :: _ => simp [runController]
  | .ok sess :: pending =>
    simp only [runController]
    exact runConnects_resets_le opts m hm pending ⟨0, 0, 0⟩ sr sess.chunks (Nat.zero_le m)

/-- Exhausting the budget: with `k` more failing connects scripted and the
budget exactly `k` above the current resets count, the run ends on the
max-resets break without ever sending to the sink. -/
theorem runConnects_fail_exhaust (m : Nat) :
    ∀ k c sr, c.resets + k = m →
      (runConnects ⟨none, some m⟩ (List.replicate k (.ok failSession) ++ [.ok goodSession])
          c sr failSession.chunks).outcome = .maxResetsReached ∧
      (runConnects ⟨none, some m⟩ (List.replicate k (.ok failSession) ++ [.ok goodSession])
          c sr failSession.chunks).sink = [] := by
  intro k
  induction k with
  | zero =>
    intro c sr hc
    have hguard : m ≤ c.resets := by omega
    simp [runConnects, runSession, failSession, hguard]
  | succ k ih =>
    intro c sr hc
    have hguard : ¬ m ≤ c.resets := by omega
    have hrec := ih ⟨c.processed, c.errors + 1, c.resets + 1⟩ sr (by simp; omega)
    unfold runConnects
    simp only [List.replicate_succ, List.cons_append]
    simp [runSession, failSession, hguard]
    exact ⟨hrec.1, hrec.2⟩

/-- Within budget: with `k` more failing connects scripted and the budget
strictly more than `k` above the current resets count, the run reaches the
good session and forwards its event. -/
theorem runConnects_fail_recover (m : Nat) :
    ∀ k c sr, c.resets + k < m →
      (runConnects ⟨none, some m⟩ (List.replicate k (.ok failSession) ++ [.ok goodSession])
          c sr failSession.chunks).sink = [sampleA] ∧
      (runConnects ⟨none, some m⟩ (List.replicate k (.ok failSession) ++ [.ok goodSession])
          c sr failSession.chunks).outcome = .streamEnded := by
  intro k
  induction k with
  | zero =>
    intro c sr hc
    have hguard : ¬ m ≤ c.resets := by omega
    simp [runConnects, runSession, failSession, goodSession, hguard]
  | succ k ih =>
    intro c sr hc
    have hguard : ¬ m ≤ c.resets := by omega
    have hrec := ih ⟨c.processed, c.errors + 1, c.resets + 1⟩ sr (by simp; omega)
    unfold runConnects
    simp only [List.replicate_succ, List.cons_append]
    simp [runSession, failSession, hguard]
    exact ⟨hrec.1, hrec.2⟩

/-! ## from_headers inversion lemmas -/

theorem fromReset_ok_parses (hm : List (String × String)) (limit reset : Option Nat)
    (rl : RateLimitHeaders)
    (h : RateLimitHeaders.from_headers.fromReset hm limit reset = .ok rl)
    (v : String) (hv : getHeader hm "x-rate-limit-remaining" = some v) :
    parseUsize v ≠ none := by
  intro hp
  simp only [RateLimitHeaders.from_headers.fromReset, hv, hp] at h
  exact Except.noConfusion h

theorem fromLimit_ok_parses (hm : List (String × String)) (limit : Option Nat)
    (rl : RateLimitHeaders)
    (h : RateLimitHeaders.from_headers.fromLimit hm limit = .ok rl)
    (v : String) (hv : getHeader hm "x-rate-limit-reset" = some v) :
    parseUsize v ≠ none := by
  intro hp
  simp only [RateLimitHeaders.from_headers.fromLimit, hv, hp] at h
  exact Except.noConfusion h

theorem from_headers_ok_fromLimit (hm : List (String × String)) (rl : RateLimitHeaders)
    (h : RateLimitHeaders.from_headers hm = .ok rl) :
    ∃ limit, RateLimitHeaders.from_headers.fromLimit hm limit = .ok rl := by
  unfold RateLimitHeaders.from_headers at h
  split at h
  · split at h
    · exact Except.noConfusion h
    · exact ⟨_, h⟩
  · exact ⟨_, h⟩

theorem fromLimit_ok_fromReset (hm : List (String × String)) (limit : Option Nat)
    (rl : RateLimitHeaders)
    (h : RateLimitHeaders.from_headers.fromLimit hm limit = .ok rl) :
    ∃ reset, RateLimitHeaders.from_headers.fromReset hm limit reset = .ok rl := by
  unfold RateLimitHeaders.from_headers.fromLimit at h
  split at h
  · split at h
    · exact Except.noConfusion h
    · exact ⟨_, h⟩
  · exact ⟨_, h⟩

theorem from_headers_ok_parses_limit (hm : List (String × String)) (rl : RateLimitHeaders)
    (h : RateLimitHeaders.from_headers hm = .ok rl)
    (v : String) (hv : getHeader hm "x-rate-limit-limit" = some v) :
    parseUsize v ≠ none := by
  intro hp
  simp only [RateLimitHeaders.from_headers, hv, hp] at h
  exact Except.noConfusion h

/-- A reconnect that draws a failed `stream_data` outcome ends the run through
the `?` at line 161: outcome `connectFailed`, and nothing more reaches the
sink. -/
theorem runConnects_connect_error (opts : ControllerOpts) (c : Counters)
    (sr : List Bool) (chunks : List (Except StreamError StreamResponse))
    (e : StreamDataError) (pending : List (Except StreamDataError Session))
    (h : (runSession opts c sr chunks).next = none) :
    (runConnects opts (.error e :: pending) c sr chunks).outcome = .connectFailed e ∧
    (runConnects opts (.error e :: pending) c sr chunks).sink =
      (runSession opts c sr chunks).sink := by
  unfold runConnects
  simp [h]

/-! ## The claims -/

/-- Claim C1 (confirmed). For a session whose classified chunk sequence is
`[TooSmall, Event(A), ParseFailure, Event(B), TransportFailure]` and
`max_resets = 0`, the loop forwards exactly A then B in that order; the
per-iteration trace shows the TooSmall chunk changing neither counter
(`⟨0,0,0⟩`), the ParseFailure raising only the error counter (`⟨1,1,0⟩`)
while streaming continues on the same session (B is forwarded next and
`resets` stays 0 throughout — no reconnect), and after the TransportFailure
the loop terminates on the failure path (the max-resets break). -/
theorem claim1_scenario_trace :
    runController ⟨none, some 0⟩ [] [.ok c1Session] =
      ⟨⟨2, 2, 0⟩, [sampleA, sampleB],
       [⟨0, 0, 0⟩, ⟨1, 0, 0⟩, ⟨1, 1, 0⟩, ⟨2, 1, 0⟩, ⟨2, 2, 0⟩], .maxResetsReached⟩ := by
  rfl

/-- Claim C2 (confirmed). Every chunk shorter than the 10-byte threshold
classifies as `StreamError.smallChunk`, whatever the lexical layer does; and
the controller skips such a chunk silently: counters, sink, and the
continuation are exactly those of the remaining chunks, the state at the end
of the skipping iteration still being the unchanged `c`. -/
theorem claim2_small_chunk_skipped :
    (∀ textToJson chunk, chunk.length < 10 →
       classify textToJson chunk = .error .smallChunk) ∧
    (∀ opts c sr rest,
       (runSession opts c sr (.error .smallChunk :: rest)).counters =
         (runSession opts c sr rest).counters ∧
       (runSession opts c sr (.error .smallChunk :: rest)).sink =
         (runSession opts c sr rest).sink ∧
       (runSession opts c sr (.error .smallChunk :: rest)).next =
         (runSession opts c sr rest).next ∧
       (runSession opts c sr (.error .smallChunk :: rest)).trace.head? = some c) := by
  constructor
  · intro textToJson chunk h
    simp [classify, h]
  · intro opts c sr rest
    exact ⟨rfl, rfl, rfl, rfl⟩

theorem claim2_small_chunk_skipped_witness :
    classify sampleTextToJson (asciiBytes "\r\n") = .error .smallChunk ∧
    (runSession ⟨none, none⟩ ⟨0, 0, 0⟩ [] [.error .smallChunk]).counters =
      (runSession ⟨none, none⟩ ⟨0, 0, 0⟩ [] []).counters :=
  ⟨claim2_small_chunk_skipped.1 sampleTextToJson (asciiBytes "\r\n") (by decide),
   (claim2_small_chunk_skipped.2 ⟨none, none⟩ ⟨0, 0, 0⟩ [] []).1⟩

/-- Claim C3 counterexample. The 12-byte chunk `["abcdefgh"]` fails to parse
as a `StreamResponse`, and the resulting `ParseFailure` carries
`format!` of the chunk with the Debug specifier plus two newlines — the
`b"…"`-escaped rendering — which is not the original chunk bytes unmodified
(it differs from the chunk read back as a string, and even its length
differs). -/
theorem claim3_counterexample :
    classify sampleTextToJson c3Chunk =
      .error (.parse ⟨"b\"[\\\"abcdefgh\\\"]\"" ++ "\n\n", .invalidType "object"⟩) ∧
    ("b\"[\\\"abcdefgh\\\"]\"" ++ "\n\n") ≠ bytesAsString c3Chunk ∧
    ("b\"[\\\"abcdefgh\\\"]\"" ++ "\n\n").length ≠ c3Chunk.length := by
  refine ⟨by decide, by decide, by decide⟩

/-- Claim C3 as amended (proved). For every chunk at or above the 10-byte
threshold whose parse fails, classification returns a `ParseFailure` carrying
the parse error as its cause together with the Debug rendering of the
original chunk bytes (the `b"…"` escaped form) followed by two newlines —
not the raw bytes themselves. -/
theorem claim3_parse_failure_payload (textToJson : List UInt8 → DeResult Json)
    (chunk : List UInt8) (e : SerdeError)
    (hlen : ¬ chunk.length < 10) (hp : from_slice textToJson chunk = .error e) :
    classify textToJson chunk = .error (.parse ⟨bytesDebugFmt chunk ++ "\n\n", e⟩) := by
  simp [classify, hlen, hp]

theorem claim3_parse_failure_payload_witness :
    classify sampleTextToJson c3Chunk =
      .error (.parse ⟨bytesDebugFmt c3Chunk ++ "\n\n", .invalidType "object"⟩) :=
  claim3_parse_failure_payload sampleTextToJson c3Chunk (.invalidType "object")
    (by decide) (by decide)

/-- Claim C4 counterexample. With `remaining = Some(0)` and `reset` exactly
equal to now — hence not strictly in the future — the code returns
`Some(0)` (a zero-length wait, via `checked_sub`), not `None` as the claim
requires for every reset that is not after the current time. -/
theorem claim4_counterexample :
    RateLimitHeaders.duration_until_reset ⟨none, some (durFromSecs 5), some 0⟩
        (.ok (durFromSecs 5)) = some 0 ∧
    (some 0 : Option Nat) ≠ none := by
  refine ⟨by decide, by decide⟩

/-- Claim C4 as amended (proved). `duration_until_reset` returns no wait
whenever `remaining ≠ Some(0)`, or `reset` is absent, or the clock errs, or
`reset` is strictly before now; with `remaining = Some(0)` and `reset ≥ now`
it returns `Some(reset − now)` — strictly positive when `reset` is strictly
in the future, and zero (not `None`) when `reset` equals now. -/
theorem claim4_wait_until_reset :
    (∀ h : RateLimitHeaders, ∀ now, h.remaining ≠ some 0 →
        h.duration_until_reset now = none) ∧
    (∀ h : RateLimitHeaders, ∀ now, h.reset = none →
        h.duration_until_reset now = none) ∧
    (∀ h : RateLimitHeaders, h.duration_until_reset (.error ()) = none) ∧
    (∀ h : RateLimitHeaders, ∀ r n, h.remaining = some 0 → h.reset = some r → r < n →
        h.duration_until_reset (.ok n) = none) ∧
    (∀ h : RateLimitHeaders, ∀ r n, h.remaining = some 0 → h.reset = some r → n ≤ r →
        h.duration_until_reset (.ok n) = some (r - n)) ∧
    (∀ r n : Nat, n < r → 0 < r - n) := by
  refine ⟨?_, ?_, ?_, ?_, ?_, ?_⟩
  · intro h now hne
    obtain ⟨l, rs, rm⟩ := h
    match rm with
    | none => rfl
    | some 0 => exact absurd rfl hne
    | some (k + 1) => rfl
  · intro h now hrs
    obtain ⟨l, rs, rm⟩ := h
    have : rs = none := hrs
    subst this
    match rm with
    | none => rfl
    | some 0 => rfl
    | some (k + 1) => rfl
  · intro h
    obtain ⟨l, rs, rm⟩ := h
    match rm, rs with
    | none, _ => rfl
    | some 0, none => rfl
    | some 0, some r => rfl
    | some (k + 1), _ => rfl
  · intro h r n h0 hr hlt
    obtain ⟨l, rs, rm⟩ := h
    have : rm = some 0 := h0
    subst this
    have : rs = some r := hr
    subst this
    show (if n ≤ r then some (r - n) else none) = none
    rw [if_neg (by omega)]
  · intro h r n h0 hr hle
    obtain ⟨l, rs, rm⟩ := h
    have : rm = some 0 := h0
    subst this
    have : rs = some r := hr
    subst this
    show (if n ≤ r then some (r - n) else none) = some (r - n)
    rw [if_pos hle]
  · intro r n h
    omega

theorem claim4_wait_until_reset_witness :
    RateLimitHeaders.duration_until_reset ⟨none, some 10, some 0⟩ (.ok 4) = some (10 - 4) ∧
    RateLimitHeaders.duration_until_reset ⟨none, some 10, some 42⟩ (.ok 4) = none :=
  ⟨claim4_wait_until_reset.2.2.2.2.1 ⟨none, some 10, some 0⟩ 10 4 rfl rfl (by decide),
   claim4_wait_until_reset.1 ⟨none, some 10, some 42⟩ (.ok 4) (by decide)⟩

/-- Claim C5 counterexample. `stream_data` never inspects the response
status: for a 401 response (no rate-limit headers, empty body) it returns a
complete session, not a `TransportFailure`. -/
theorem claim5_counterexample :
    stream_data sampleTextToJson (.ok c5Response401) = .ok ⟨⟨none, none, none⟩, []⟩ ∧
    c5Response401.status = 401 := by
  refine ⟨rfl, rfl⟩

/-- Claim C5 as amended (proved). A network-level failure at connect time
makes `stream_data` return the transport error immediately, and a malformed
rate-limit header likewise fails the call; in either case no partial session
is returned (the only success shape is the full snapshot plus the whole
classified chunk sequence). The HTTP status, however, is never inspected:
the result is unchanged under any change of status. -/
theorem claim5_connect_failures :
    (∀ textToJson e, stream_data textToJson (.error e) = .error (.transport e)) ∧
    (∀ textToJson res e, RateLimitHeaders.from_headers res.headers = .error e →
        stream_data textToJson (.ok res) = .error (.header e)) ∧
    (∀ textToJson res rl, RateLimitHeaders.from_headers res.headers = .ok rl →
        stream_data textToJson (.ok res) =
          .ok ⟨rl, res.chunks.map (stream_map_chunk textToJson)⟩) ∧
    (∀ textToJson res n,
        stream_data textToJson (.ok { res with status := n }) =
          stream_data textToJson (.ok res)) := by
  refine ⟨fun _ _ => rfl, ?_, ?_, fun _ _ _ => rfl⟩
  · intro textToJson res e h
    simp [stream_data, h]
  · intro textToJson res rl h
    simp [stream_data, h]

theorem claim5_connect_failures_witness :
    stream_data sampleTextToJson (.error sampleReqErr) = .error (.transport sampleReqErr) ∧
    stream_data sampleTextToJson (.ok ⟨200, c9BadHeaders, []⟩) =
      .error (.header (.notAnInteger "not-a-number")) :=
  ⟨claim5_connect_failures.1 sampleTextToJson sampleReqErr,
   claim5_connect_failures.2.1 sampleTextToJson ⟨200, c9BadHeaders, []⟩
     (.notAnInteger "not-a-number") (by decide)⟩

/-- Claim C6 (confirmed). Whenever `max_resets` is configured the controller
keeps `connection_resets ≤ max_resets` at every recorded step and at the
end of the run; drawing a `TransportFailure` with the budget already reached
terminates the session immediately (max-resets break) instead of
reconnecting; and for a script that fails transport `N ≥ 1` times then
succeeds, `max_resets = N−1` ends on the failure path with an empty sink,
while `max_resets = N` reaches the good session and forwards its event. -/
theorem claim6_reset_budget :
    (∀ opts sr connects m, opts.max_resets = some m →
       (∀ x ∈ (runController opts sr connects).trace, x.resets ≤ m) ∧
       (runController opts sr connects).counters.resets ≤ m) ∧
    (∀ opts c sr rest m e, opts.max_resets = some m → m ≤ c.resets →
       runSession opts c sr (.error (.reqwest e) :: rest) =
         ⟨{ c with errors := c.errors + 1 }, [], [{ c with errors := c.errors + 1 }], sr,
          some .maxResetsReached⟩) ∧
    (∀ N sr, 1 ≤ N →
       (runController ⟨none, some (N - 1)⟩ sr (failNconnects N)).outcome =
         .maxResetsReached ∧
       (runController ⟨none, some (N - 1)⟩ sr (failNconnects N)).sink = []) ∧
    (∀ N sr, 1 ≤ N →
       (runController ⟨none, some N⟩ sr (failNconnects N)).sink = [sampleA] ∧
       (runController ⟨none, some N⟩ sr (failNconnects N)).outcome = .streamEnded) := by
  refine ⟨?_, ?_, ?_, ?_⟩
  · intro opts sr connects m hm
    exact ⟨(runController_resets_le opts m hm sr connects).2,
           (runController_resets_le opts m hm sr connects).1⟩
  · intro opts c sr rest m e hm hle
    simp [runSession, hm, hle]
  · intro N sr hN
    obtain ⟨k, rfl⟩ : ∃ k, N = k + 1 := ⟨N - 1, by omega⟩
    have h := runConnects_fail_exhaust (k + 1 - 1) k ⟨0, 0, 0⟩ sr
      (by show (0 : Nat) + k = k + 1 - 1; omega)
    simp only [failNconnects, List.replicate_succ, List.cons_append, runController]
    exact h
  · intro N sr hN
    obtain ⟨k, rfl⟩ : ∃ k, N = k + 1 := ⟨N - 1, by omega⟩
    have h := runConnects_fail_recover (k + 1) k ⟨0, 0, 0⟩ sr
      (by show (0 : Nat) + k < k + 1; omega)
    simp only [failNconnects, List.replicate_succ, List.cons_append, runController]
    exact h

theorem claim6_reset_budget_witness :
    (runController ⟨none, some 1⟩ [] (failNconnects 2)).outcome = .maxResetsReached ∧
    (runController ⟨none, some 1⟩ [] (failNconnects 2)).sink = [] ∧
    (runController ⟨none, some 2⟩ [] (failNconnects 2)).sink = [sampleA] ∧
    (runController ⟨none, some 2⟩ [] (failNconnects 2)).counters.resets ≤ 2 :=
  ⟨(claim6_reset_budget.2.2.1 2 [] (by decide)).1,
   (claim6_reset_budget.2.2.1 2 [] (by decide)).2,
   (claim6_reset_budget.2.2.2 2 [] (by decide)).1,
   (claim6_reset_budget.1 ⟨none, some 2⟩ [] (failNconnects 2) 2 rfl).2⟩

/-- Claim C7 counterexample. `hugeProbJson` is a valid event payload — it
parses, the `1e40` probability (written out as its integer numeral) saturating to infinity in the `f64 → f32`
cast — yet serializing the parsed event writes that probability as `null`
and re-parsing fails with a type error: the round trip of this parsed event
does not yield an equal event. -/
theorem claim7_counterexample :
    StreamResponse.fromJson hugeProbJson = .ok hugeProbEvent ∧
    StreamResponse.fromJson (StreamResponse.toJson hugeProbEvent) =
      .error (.invalidType "f32") := by
  refine ⟨by decide, by decide⟩

/-- Claim C7 as amended (proved). For every payload that parses to an event
all of whose float fields are finite, serializing the event back to JSON and
re-parsing yields the same event, field for field. (The custom deserializer
recomputes `url` from `id`, but a parsed event already satisfies
`url = tweetid2url id`; the finiteness condition excludes exactly the parsed
events carrying an infinite probability, whose serialization writes `null`
for that field and fails to re-parse.) -/
theorem claim7_roundtrip (j : Json) (r : StreamResponse)
    (h : StreamResponse.fromJson j = .ok r) (hf : r.floatsFinite = true) :
    StreamResponse.fromJson (StreamResponse.toJson r) = .ok r :=
  streamResponse_roundtrip r (streamResponse_fromJson_url j r h) hf

theorem claim7_roundtrip_witness :
    StreamResponse.fromJson (StreamResponse.toJson sampleC) = .ok sampleC :=
  claim7_roundtrip sampleJsonC sampleC (by decide) (by decide)

/-- Claim C8 counterexample. A run whose single scripted sink send fails
(`sinkResults = [false]`, the `Result` the code discards with `.ok()`) still
counts the event as processed and counts no error: the final counters are
`processed = 1, errors = 0`, where the claim requires the sink error to be
counted and the event not to be counted as processed. -/
theorem claim8_counterexample :
    runController ⟨none, none⟩ [false] [.ok c8Session] =
      ⟨⟨1, 0, 0⟩, [sampleA], [⟨1, 0, 0⟩], .streamEnded⟩ := by
  rfl

/-- Claim C8 as amended (proved). The controller makes exactly one sink send
per successfully parsed event (the event heads the sink trace and the
iteration consumes exactly one scripted send result), but the send's result
is discarded: the run is identical whatever the sink returns, the event is
counted as processed, and the error counter is untouched — a sink error is
neither reported nor counted, unlike a parse failure. -/
theorem claim8_sink_result_ignored :
    (∀ opts c t rest b₁ b₂ sr,
       runSession opts c (b₁ :: sr) (.ok t :: rest) =
         runSession opts c (b₂ :: sr) (.ok t :: rest)) ∧
    (∀ opts c sr t rest,
       (runSession opts c sr (.ok t :: rest)).trace.head? =
         some ⟨c.processed + 1, c.errors, c.resets⟩) ∧
    (∀ opts c sr t rest,
       (runSession opts c sr (.ok t :: rest)).sink.head? = some t) := by
  refine ⟨fun opts c t rest b₁ b₂ sr => rfl, ?_, ?_⟩
  · intro opts c sr t rest
    simp only [runSession]
    split
    · rfl
    · rfl
  · intro opts c sr t rest
    simp only [runSession]
    split
    · rfl
    · rfl

theorem claim8_sink_result_ignored_witness :
    runSession ⟨none, none⟩ ⟨0, 0, 0⟩ [false] [.ok sampleA] =
      runSession ⟨none, none⟩ ⟨0, 0, 0⟩ [true] [.ok sampleA] ∧
    (runSession ⟨none, none⟩ ⟨0, 0, 0⟩ [false] [.ok sampleA]).trace.head? =
      some ⟨1, 0, 0⟩ ∧
    (runSession ⟨none, none⟩ ⟨0, 0, 0⟩ [false] [.ok sampleA]).sink.head? = some sampleA :=
  ⟨claim8_sink_result_ignored.1 ⟨none, none⟩ ⟨0, 0, 0⟩ sampleA [] false true [],
   claim8_sink_result_ignored.2.1 ⟨none, none⟩ ⟨0, 0, 0⟩ [false] sampleA [],
   claim8_sink_result_ignored.2.2 ⟨none, none⟩ ⟨0, 0, 0⟩ [false] sampleA []⟩

/-- Claim C9 counterexample. With a budget of 5 and no reset yet, a second
connect attempt that fails on a malformed rate-limit header does not take
the reconnect path: the run terminates at once through the `?` on
`stream_data` with outcome `connectFailed`, the scripted good session is
never opened and nothing reaches the sink — where the claim predicts the
same reconnect path as any other transport failure (which would have
forwarded the good session's event). -/
theorem claim9_counterexample :
    RateLimitHeaders.from_headers c9BadHeaders = .error (.notAnInteger "not-a-number") ∧
    runController ⟨none, some 5⟩ []
        [.ok failSession, .error (.header (.notAnInteger "not-a-number")), .ok goodSession] =
      ⟨⟨0, 1, 0⟩, [], [⟨0, 1, 0⟩], .connectFailed (.header (.notAnInteger "not-a-number"))⟩ := by
  refine ⟨by decide, rfl⟩

/-- Claim C9 as amended (proved). A present rate-limit header that fails to
parse is a hard error for that `stream_data` call: the whole connect attempt
fails, and a successful call proves every present rate-limit header parsed —
malformed values are never silently degraded to "no information". Such a
failure surfaces as the connect attempt's error, and a failed connect during
the reconnect path terminates the controller (outcome `connectFailed`, no
further sink traffic) — it does not re-enter the reconnect loop. -/
theorem claim9_malformed_header :
    (∀ hm v, getHeader hm "x-rate-limit-limit" = some v → parseUsize v = none →
        RateLimitHeaders.from_headers hm = .error (.notAnInteger v)) ∧
    (∀ hm rl, RateLimitHeaders.from_headers hm = .ok rl →
        ∀ name ∈ (["x-rate-limit-limit", "x-rate-limit-reset",
                   "x-rate-limit-remaining"] : List String),
          ∀ v, getHeader hm name = some v → parseUsize v ≠ none) ∧
    (∀ textToJson res e, RateLimitHeaders.from_headers res.headers = .error e →
        stream_data textToJson (.ok res) = .error (.header e)) ∧
    (∀ opts c sr chunks e pending, (runSession opts c sr chunks).next = none →
        (runConnects opts (.error e :: pending) c sr chunks).outcome = .connectFailed e ∧
        (runConnects opts (.error e :: pending) c sr chunks).sink =
          (runSession opts c sr chunks).sink) := by
  refine ⟨?_, ?_, ?_, ?_⟩
  · intro hm v hv hp
    simp [RateLimitHeaders.from_headers, hv, hp]
  · intro hm rl h name hname v hv hp
    simp only [List.mem_cons, List.mem_singleton, List.not_mem_nil, or_false] at hname
    rcases hname with rfl | rfl | rfl
    · exact from_headers_ok_parses_limit hm rl h v hv hp
    · obtain ⟨limit, hL⟩ := from_headers_ok_fromLimit hm rl h
      exact fromLimit_ok_parses hm limit rl hL v hv hp
    · obtain ⟨limit, hL⟩ := from_headers_ok_fromLimit hm rl h
      obtain ⟨reset, hR⟩ := fromLimit_ok_fromReset hm limit rl hL
      exact fromReset_ok_parses hm limit reset rl hR v hv hp
  · intro textToJson res e h
    simp [stream_data, h]
  · intro opts c sr chunks e pending h
    exact runConnects_connect_error opts c sr chunks e pending h

theorem claim9_malformed_header_witness :
    RateLimitHeaders.from_headers c9BadHeaders = .error (.notAnInteger "not-a-number") ∧
    (runConnects ⟨none, some 5⟩ [.error (.header (.notAnInteger "not-a-number"))] ⟨0, 0, 0⟩
        [] failSession.chunks).outcome =
      .connectFailed (.header (.notAnInteger "not-a-number")) :=
  ⟨claim9_malformed_header.1 c9BadHeaders "not-a-number" (by decide) (by decide),
   (claim9_malformed_header.2.2.2 ⟨none, some 5⟩ ⟨0, 0, 0⟩ [] failSession.chunks
     (.header (.notAnInteger "not-a-number")) [] (by decide)).1⟩

/-- Claim C10 (confirmed). Converting a raw payload discards any supplied
`url` entirely and recomputes it from the payload's own `id` as
`"https://twitter.com/i/web/status/" ++ id`; consequently every successfully
deserialized `StreamResponseData` satisfies `url = tweetid2url id`. -/
theorem claim10_url_recomputed :
    (∀ raw : StreamResponseDataRaw,
       (StreamResponseData.ofRaw raw).url = "https://twitter.com/i/web/status/" ++ raw.id) ∧
    (∀ raw u, StreamResponseData.ofRaw { raw with url := u } =
       StreamResponseData.ofRaw raw) ∧
    (∀ j d, StreamResponseData.fromJson j = .ok d → d.url = tweetid2url d.id) := by
  exact ⟨fun raw => rfl, fun raw u => rfl, data_fromJson_url⟩

theorem claim10_url_recomputed_witness :
    (StreamResponseData.ofRaw ⟨"1001", "99", some "https://evil.example/x", "hello",
        "2021-05-14T00:00:00.000Z", "1001", none, ⟨1, 2, 3, 4⟩, none⟩).url =
      "https://twitter.com/i/web/status/" ++ "1001" :=
  claim10_url_recomputed.1 ⟨"1001", "99", some "https://evil.example/x", "hello",
    "2021-05-14T00:00:00.000Z", "1001", none, ⟨1, 2, 3, 4⟩, none⟩
